import Mathlib

/-!
Verification development for the call-center gateway (api-gateway service).

The definitions below are a shallow embedding of the Python source:
enums and pydantic models from `app/schemas.py`, the pure helpers from
`app/utils.py`, and the session/connection operations from `app/main.py`.
Machine floats (timestamps, durations, thresholds) are modelled as
rationals; Python dicts keyed by strings are modelled as association
lists with first-key lookup; external collaborator calls are modelled by
parameters describing the outcome of each call and by emitted call/event
records.
-/

namespace CallCenter

/-- `PlanType` enum from `app/schemas.py`. -/
inductive PlanType
  | human_only
  | ai_only
  | hybrid
deriving DecidableEq, Repr

/-- `AgentMode` enum from `app/schemas.py`. -/
inductive AgentMode
  | AI
  | HUMAN
  | TRANSFERRING
deriving DecidableEq, Repr

/-- `TransferReason` enum from `app/schemas.py`. -/
inductive TransferReason
  | USER_REQUEST
  | AI_CONFIDENCE_LOW
  | ESCALATION
  | COMPLEX_QUERY
deriving DecidableEq, Repr

/-- `VoiceStatus` enum from `app/schemas.py`. -/
inductive VoiceStatus
  | READY
  | PROCESSING
  | FAILED
deriving DecidableEq, Repr

/-- `ConversationStage` enum from `app/schemas.py`. -/
inductive ConversationStage
  | GREETING
  | MIDDLE
  | CLOSING
  | ENDED
deriving DecidableEq, Repr

/-- `LeadQuestion` pydantic model from `app/schemas.py`. -/
structure LeadQuestion where
  question_id : String
  question_text : String
  required : Bool := true
  order : Int := 1
  trigger_condition : ConversationStage := ConversationStage.MIDDLE
deriving DecidableEq, Repr

/-- `OrganizationConfig` pydantic model from `app/schemas.py`
(`voice_settings` is carried as an association list of rationals). -/
structure OrganizationConfig where
  org_id : String
  org_name : String
  plan_type : PlanType
  voice_id : String
  fallback_voice_id : String := "default-voice"
  voice_settings : List (String × ℚ) := [("stability", 1/2), ("similarity_boost", 4/5)]
  greeting_message : String := "Hello! How can I assist you today?"
  lead_questions : List LeadQuestion := []
  transfer_keywords : List String := ["human", "agent", "representative", "escalate"]
  ai_confidence_threshold : ℚ := 7/10
  enable_document_retrieval : Bool := true
  max_call_duration : Int := 600
  subscription_active : Bool := true
deriving DecidableEq, Repr

/-- `SessionInfo` pydantic model from `app/schemas.py`; `lead_answers` is
the answered-question dictionary, modelled as an association list. -/
structure SessionInfo where
  session_id : String
  org_id : String
  plan_type : PlanType
  agent_mode : AgentMode
  voice_id : String
  start_time : ℚ
  last_interaction_time : ℚ
  conversation_stage : ConversationStage := ConversationStage.GREETING
  human_agent_id : Option String := none
  transfer_reason : Option TransferReason := none
  lead_answers : List (String × String) := []
  asked_questions : List String := []
  required_questions_pending : List String := []
  call_duration : ℚ := 0
deriving DecidableEq, Repr

/-- Python dict insertion `\x7b**d, k: v\x7d`: replaces the value in place
when the key is present, appends otherwise. -/
def dictInsert (d : List (String × String)) (k v : String) : List (String × String) :=
  if d.any (fun p => p.1 == k) then
    d.map (fun p => if p.1 == k then (k, v) else p)
  else
    d ++ [(k, v)]

/-- Python dict lookup `d[k]` / `k in d`, as an option. -/
def dictLookup (d : List (String × String)) (k : String) : Option String :=
  (d.find? (fun p => p.1 == k)).map (fun p => p.2)

/-- `detect_conversation_stage` from `app/utils.py`, with the branches in
source order: `duration < 30` and `duration > max_duration * 0.8` are
tested before `duration > max_duration`. -/
def detect_conversation_stage (plan_type : PlanType) (duration : ℚ) : ConversationStage :=
  let max_duration : ℚ := if plan_type = PlanType.human_only then 1800 else 600
  if duration < 30 then ConversationStage.GREETING
  else if duration > max_duration * (8 / 10) then ConversationStage.CLOSING
  else if duration > max_duration then ConversationStage.ENDED
  else ConversationStage.MIDDLE

/-- Hexadecimal character class `[0-9a-fA-F]` used by `validate_audio`. -/
def isHexChar (c : Char) : Bool :=
  (Char.ofNat 48 ≤ c && c ≤ Char.ofNat 57) ||
  (Char.ofNat 97 ≤ c && c ≤ Char.ofNat 102) ||
  (Char.ofNat 65 ≤ c && c ≤ Char.ofNat 70)

/-- `validate_audio` from `app/utils.py`: the payload must fully match
`[0-9a-fA-F]+` (nonempty, all hex) or a format error is raised, and a
match longer than 10,000,000 characters raises a size error. The payload
is modelled as a character list; a raised `ValueError` is an `error`. -/
def validate_audio (audio_hex : List Char) : Except String Unit :=
  if !(!audio_hex.isEmpty && audio_hex.all isHexChar) then Except.error "Invalid audio format"
  else if audio_hex.length > 10000000 then Except.error "Audio too large"
  else Except.ok ()

/-- A call made to an external collaborator service (`service_request`
call sites in `app/main.py`). -/
inductive ExtCall
  | ttsSynthesize (text voice_id session_id : String)
  | leadsCapture (session_id org_id question_id answer : String)
  | leadsFinalize (session_id org_id : String) (leads : List (String × String))
  | billingRecordCall (org_id session_id : String) (duration : ℚ) (agent_mode : AgentMode)
  | agentTransfer (session_id : String) (reason : TransferReason)
deriving DecidableEq, Repr

/-- An event sent to the caller over the websocket. -/
inductive OutEvent
  | leadQuestion (session_id question_id text : String) (required : Bool)
  | callEnd (session_id : String) (duration : ℚ) (leads_captured : Nat)
  | errorEvent (session_id message : String)
  | transferComplete (session_id agent_id : String)
deriving DecidableEq, Repr

/-- Python `min(qs, key=lambda x: x.order)` on a nonempty list: scans left
to right and keeps the first element whose order is strictly smaller than
the current best, so ties go to the earliest element. -/
def minByOrder (q : LeadQuestion) (qs : List LeadQuestion) : LeadQuestion :=
  qs.foldl (fun best x => if x.order < best.order then x else best) q

/-- The local `stage_questions` list of `get_next_lead_question`
(`app/main.py`): questions triggered at the current conversation stage
and not already asked. -/
def stage_questions (session : SessionInfo) (org_config : OrganizationConfig) :
    List LeadQuestion :=
  org_config.lead_questions.filter (fun q =>
    decide (q.trigger_condition = session.conversation_stage ∧
            q.question_id ∉ session.asked_questions))

/-- The local `required` list of `get_next_lead_question`: eligible
questions that are required and whose id is still pending. -/
def required_pending (session : SessionInfo) (org_config : OrganizationConfig) :
    List LeadQuestion :=
  (stage_questions session org_config).filter (fun q =>
    q.required && decide (q.question_id ∈ session.required_questions_pending))

/-- `get_next_lead_question` from `app/main.py`: filter the organization's
questions to those triggered at the current stage and not already asked;
prefer required ones still pending (minimum order), else any eligible one
(minimum order), else none. -/
def get_next_lead_question (session : SessionInfo) (org_config : OrganizationConfig) :
    Option LeadQuestion :=
  match required_pending session org_config with
  | q :: qs => some (minByOrder q qs)
  | [] =>
    match stage_questions session org_config with
    | q :: qs => some (minByOrder q qs)
    | [] => none

/-- `ask_lead_question` from `app/main.py`. The TTS synthesize call is
issued first; if it does not return 200 (or the send fails) the raised
exception is caught inside the function and no session update happens.
On success the `lead_question` event is sent and the question id is
appended to `asked_questions` via `update_session`. `ttsOk` carries the
outcome of the TTS collaborator call. -/
def ask_lead_question (session : SessionInfo) (question : LeadQuestion) (ttsOk : Bool) :
    SessionInfo × List ExtCall × List OutEvent :=
  let call := ExtCall.ttsSynthesize question.question_text session.voice_id session.session_id
  if ttsOk then
    ({ session with asked_questions := session.asked_questions ++ [question.question_id] },
     [call],
     [OutEvent.leadQuestion session.session_id question.question_id question.question_text
        question.required])
  else
    (session, [call], [])

/-- Stable insertion used to model Python `sorted(questions, key=lambda q: q.order)`. -/
def insertByOrder (q : LeadQuestion) : List LeadQuestion → List LeadQuestion
  | [] => [q]
  | x :: xs => if q.order < x.order then q :: x :: xs else x :: insertByOrder q xs

/-- Python `sorted` by ascending `order` (stable). -/
def sortByOrder (qs : List LeadQuestion) : List LeadQuestion :=
  qs.foldr insertByOrder []

/-- `ask_pending_questions` from `app/main.py`: ask each question in
ascending `order`, threading the session state mutated by each ask. -/
def ask_pending_questions (session : SessionInfo) (questions : List LeadQuestion)
    (ttsOk : Bool) : SessionInfo × List ExtCall × List OutEvent :=
  (sortByOrder questions).foldl
    (fun acc q =>
      let r := ask_lead_question acc.1 q ttsOk
      (r.1, acc.2.1 ++ r.2.1, acc.2.2 ++ r.2.2))
    (session, [], [])

/-- `capture_lead_answer` from `app/main.py`: fold the answer into
`lead_answers`, append the question id to `asked_questions`, drop it from
`required_questions_pending` (all through `update_session`), then send the
capture fact to the leads collaborator. -/
def capture_lead_answer (session : SessionInfo) (question : LeadQuestion) (answer : String) :
    SessionInfo × List ExtCall :=
  let new_answers := dictInsert session.lead_answers question.question_id answer
  let new_asked := session.asked_questions ++ [question.question_id]
  let new_pending := session.required_questions_pending.filter
    (fun qid => qid != question.question_id)
  ({ session with
      lead_answers := new_answers,
      asked_questions := new_asked,
      required_questions_pending := new_pending },
   [ExtCall.leadsCapture session.session_id session.org_id question.question_id answer])

/-- Outcome of the agent-transfer collaborator call: the HTTP status and
the agent id carried in the response body. -/
structure TransferOutcome where
  status : Nat
  agent_id : Option String
deriving DecidableEq, Repr

/-- The functions bound at module level in `app/main.py` (its seventeen
`def`/`async def` statements outside `ConnectionManager`). The module's
other global bindings (imports, `app`, `manager`, `logger`,
`service_clients`, `redis_pool`, `FALLBACK_VOICE_ID`, the class itself)
bind none of the helper names in question: `send_error`,
`route_audio_message`, `route_text_message`, `send_welcome_message` and
`connect_to_human_agent` are called but defined nowhere in the
repository. -/
def gatewayModuleFunctions : List String :=
  ["lifespan", "websocket_endpoint", "send_heartbeat", "monitor_session",
   "handle_closing_stage", "ask_pending_questions", "ask_lead_question",
   "process_ai_response", "get_next_lead_question", "capture_lead_answer",
   "handle_transfer_request", "handle_call_end", "verify_jwt_token", "health_check",
   "check_redis_health", "check_service_health", "get_session_info", "force_transfer"]

/-- Python global-name resolution for a call in `app/main.py`: a name not
bound at module level raises `NameError` at the call site. -/
def resolveGatewayName (name : String) : Except String Unit :=
  if gatewayModuleFunctions.contains name then Except.ok ()
  else Except.error ("NameError: " ++ name)

/-- A call site `send_error(websocket, session_id, message)` in
`app/main.py`: `send_error` is defined nowhere in the repository, so the
call raises `NameError` instead of sending an error event. Were the name
bound to an error-event sender, the event would be emitted. -/
def send_error_call (session_id message : String) : Except String OutEvent :=
  match resolveGatewayName "send_error" with
  | Except.ok _ => Except.ok (OutEvent.errorEvent session_id message)
  | Except.error e => Except.error e

/-- Result of running `handle_transfer_request`: the session state after
the run (mutations made before an exception persist), the collaborator
calls issued, the events sent, and the Python exception that escaped the
handler, if any. -/
structure TransferResult where
  session : SessionInfo
  calls : List ExtCall := []
  events : List OutEvent := []
  exn : Option String := none
deriving DecidableEq, Repr

/-- `handle_transfer_request` from `app/main.py`: for `ai_only` plans the
branch's only statement is a call to the undefined `send_error`, so it
raises `NameError` with no state change, no collaborator call and no
event; otherwise the mode moves to `TRANSFERRING`, the agent
collaborator is called, and status 200 sets `HUMAN` with the returned
agent id and emits the transfer-complete event, while anything else
reverts the mode to `AI` and then raises `NameError` from the
`send_error("Transfer failed")` call site. -/
def handle_transfer_request (session : SessionInfo) (reason : TransferReason)
    (outcome : TransferOutcome) : TransferResult :=
  if session.plan_type = PlanType.ai_only then
    match send_error_call session.session_id "Transfer not available" with
    | Except.ok ev => { session := session, events := [ev] }
    | Except.error e => { session := session, exn := some e }
  else
    let transferring := { session with
      agent_mode := AgentMode.TRANSFERRING, transfer_reason := some reason }
    let call := ExtCall.agentTransfer session.session_id reason
    if outcome.status = 200 then
      { session := { transferring with
          agent_mode := AgentMode.HUMAN, human_agent_id := outcome.agent_id },
        calls := [call],
        events := [OutEvent.transferComplete session.session_id (outcome.agent_id.getD "")] }
    else
      match send_error_call session.session_id "Transfer failed" with
      | Except.ok ev =>
        { session := { transferring with agent_mode := AgentMode.AI },
          calls := [call], events := [ev] }
      | Except.error e =>
        { session := { transferring with agent_mode := AgentMode.AI },
          calls := [call], exn := some e }

/-- `handle_call_end` from `app/main.py`: with unanswered required
questions and `forced = false` it only asks the pending questions and
returns; otherwise it sends the leads-finalize call when any answers were
captured, always sends the billing record-call, and emits the `call_end`
event. It never consults the connection manager's session map. -/
def handle_call_end (session : SessionInfo) (org_config : OrganizationConfig)
    (forced : Bool) (ttsOk : Bool) : SessionInfo × List ExtCall × List OutEvent :=
  let unanswered := org_config.lead_questions.filter (fun q =>
    q.required && decide (q.question_id ∈ session.required_questions_pending))
  if !unanswered.isEmpty && !forced then
    ask_pending_questions session unanswered ttsOk
  else
    let finalizeCalls :=
      if !session.lead_answers.isEmpty then
        [ExtCall.leadsFinalize session.session_id session.org_id session.lead_answers]
      else []
    (session,
     finalizeCalls ++
       [ExtCall.billingRecordCall session.org_id session.session_id
          session.call_duration session.agent_mode],
     [OutEvent.callEnd session.session_id session.call_duration session.lead_answers.length])

/-- In-memory state of `ConnectionManager` from `app/main.py`: the map of
live websocket connections (entries keyed by session id) and the map of
session state. Both dicts are modelled as association lists. -/
structure ManagerState where
  active_connections : List String := []
  session_info : List (String × SessionInfo) := []
deriving DecidableEq, Repr

/-- Lookup of `self.session_info[session_id]` (first matching key). -/
def lookupSession (m : List (String × SessionInfo)) (sid : String) : Option SessionInfo :=
  (m.find? (fun e => e.1 == sid)).map (fun e => e.2)

/-- In-place mutation of the entry held under `sid` (the session object is
mutated by `setattr`, so the map entry and the caller's reference change
together). -/
def setSession (m : List (String × SessionInfo)) (sid : String) (s : SessionInfo) :
    List (String × SessionInfo) :=
  m.map (fun e => if e.1 == sid then (sid, s) else e)

/-- The keyword arguments accepted by `update_session(**updates)` at its
call sites in `app/main.py`, as an explicit patch record: `some v` means
the field is named in the update with value `v`, `none` means it is not
named. -/
structure SessionPatch where
  last_interaction_time : Option ℚ := none
  call_duration : Option ℚ := none
  conversation_stage : Option ConversationStage := none
  agent_mode : Option AgentMode := none
  transfer_reason : Option (Option TransferReason) := none
  human_agent_id : Option (Option String) := none
  lead_answers : Option (List (String × String)) := none
  asked_questions : Option (List String) := none
  required_questions_pending : Option (List String) := none
deriving DecidableEq, Repr

/-- The `setattr` loop of `update_session`: each named field is set, the
rest keep their current value. -/
def applyPatch (s : SessionInfo) (p : SessionPatch) : SessionInfo :=
  { s with
    last_interaction_time := p.last_interaction_time.getD s.last_interaction_time,
    call_duration := p.call_duration.getD s.call_duration,
    conversation_stage := p.conversation_stage.getD s.conversation_stage,
    agent_mode := p.agent_mode.getD s.agent_mode,
    transfer_reason := p.transfer_reason.getD s.transfer_reason,
    human_agent_id := p.human_agent_id.getD s.human_agent_id,
    lead_answers := p.lead_answers.getD s.lead_answers,
    asked_questions := p.asked_questions.getD s.asked_questions,
    required_questions_pending := p.required_questions_pending.getD s.required_questions_pending }

/-- `ConnectionManager.update_session` from `app/main.py`: when the
session id is in the in-memory map, apply the patch and persist the full
snapshot via `store_session` (the returned list is the sequence of store
writes, each a full snapshot); when it is absent, do nothing and write
nothing. -/
def update_session (st : ManagerState) (sid : String) (p : SessionPatch) :
    ManagerState × List (String × SessionInfo) :=
  match lookupSession st.session_info sid with
  | some s =>
    let s2 := applyPatch s p
    ({ st with session_info := setSession st.session_info sid s2 }, [(sid, s2)])
  | none => (st, [])

/-- `ConnectionManager._get_initial_agent_mode` from `app/main.py`. -/
def get_initial_agent_mode (plan_type : PlanType) : AgentMode :=
  if plan_type = PlanType.human_only then AgentMode.HUMAN
  else if plan_type = PlanType.ai_only then AgentMode.AI
  else AgentMode.AI

/-- `FALLBACK_VOICE_ID` module constant from `app/main.py`. -/
def FALLBACK_VOICE_ID : String := "default-voice"

/-- Response of the voice-readiness probe used by
`get_effective_voice_id`: HTTP status and the reported voice status. -/
structure VoiceProbe where
  status : Nat
  voice_status : VoiceStatus
deriving DecidableEq, Repr

/-- `ConnectionManager.get_effective_voice_id` from `app/main.py`: the
organization's voice is kept only when the probe returns 200 with status
`READY`; otherwise the configured fallback is used, or the platform
default when the fallback is falsy (the empty string). -/
def get_effective_voice_id (org_config : OrganizationConfig) (probe : VoiceProbe) : String :=
  if probe.status = 200 ∧ probe.voice_status = VoiceStatus.READY then
    org_config.voice_id
  else if org_config.fallback_voice_id == "" then FALLBACK_VOICE_ID
  else org_config.fallback_voice_id

/-- Externally visible actions taken by `ConnectionManager.connect`, in
program order. -/
inductive ConnAction
  | acceptWs
  | registerConnection (session_id : String)
  | closeWs (code : Nat) (reason : String)
  | storeWrite (session_id : String)
deriving DecidableEq, Repr

/-- `ConnectionManager.connect` from `app/main.py`: accept the websocket
and register it under the session id first; then fetch the organization
config (`orgLookup` is its outcome) and close with 4004 when missing;
then validate the subscription (`subActive`) and close with 4003 when
inactive; on both rejection paths the registered connection is left in
`active_connections` and no session is created. On success the session
is built with the effective voice, the initial agent mode and all
required question ids pending, stored, and registered in `session_info`. -/
def connect (st : ManagerState) (session_id org_id : String)
    (orgLookup : Option OrganizationConfig) (subActive : Bool) (probe : VoiceProbe)
    (now : ℚ) : Bool × ManagerState × List ConnAction :=
  let st1 := { st with active_connections := st.active_connections ++ [session_id] }
  match orgLookup with
  | none =>
    (false, st1,
     [ConnAction.acceptWs, ConnAction.registerConnection session_id,
      ConnAction.closeWs 4004 "Organization not found"])
  | some org_config =>
    if !subActive then
      (false, st1,
       [ConnAction.acceptWs, ConnAction.registerConnection session_id,
        ConnAction.closeWs 4003 "Subscription inactive"])
    else
      let voice_id := get_effective_voice_id org_config probe
      let session : SessionInfo :=
        { session_id := session_id
          org_id := org_id
          plan_type := org_config.plan_type
          agent_mode := get_initial_agent_mode org_config.plan_type
          voice_id := voice_id
          start_time := now
          last_interaction_time := now
          required_questions_pending :=
            (org_config.lead_questions.filter (fun q => q.required)).map
              (fun q => q.question_id) }
      (true,
       { st1 with session_info := st1.session_info ++ [(session_id, session)] },
       [ConnAction.acceptWs, ConnAction.registerConnection session_id,
        ConnAction.storeWrite session_id])

/-- One attempt's environment for `service_request`: either the HTTP layer
produced a well-formed response (status and body), or a transport-level
exception was raised. -/
inductive AttemptOutcome
  | response (status : Nat) (body : String)
  | exn (message : String)
deriving DecidableEq, Repr

/-- The body of `service_request` from `app/utils.py` for one attempt: a
well-formed response is returned as-is (any status, no exception), and
every exception is caught by the `except` clause and converted into a
normal `(503, Service unavailable)` return — the body itself never
raises. -/
def service_request_attempt (outcome : AttemptOutcome) : Except String (Nat × String) :=
  match outcome with
  | AttemptOutcome.response status body => Except.ok (status, body)
  | AttemptOutcome.exn _ => Except.ok (503, "Service unavailable")

/-- `wait_exponential(multiplier=1, min=2, max=10)` from the tenacity
decorator on `service_request`: wait before retry `n` is `2^n` clamped to
the interval [2, 10]. -/
def wait_exponential (n : Nat) : ℚ :=
  max 2 (min 10 ((2 : ℚ) ^ n))

/-- The tenacity `retry` combinator with `stop_after_attempt`: run the
wrapped body on the current attempt's outcome; a normal return ends the
loop, a raised exception is retried while attempts remain and re-raised
when they are exhausted. `env n` is the environment seen by attempt `n`
(0-based). -/
def tenacityRetry (body : AttemptOutcome → Except String (Nat × String))
    (env : Nat → AttemptOutcome) : Nat → Nat → Except String (Nat × String)
  | 0, _ => Except.error "RetryError"
  | remaining + 1, i =>
    match body (env i) with
    | Except.ok r => Except.ok r
    | Except.error e =>
      match remaining with
      | 0 => Except.error e
      | _ + 1 => tenacityRetry body env remaining (i + 1)

/-- `service_request` from `app/utils.py` as deployed: the attempt body
wrapped in `retry(stop=stop_after_attempt(3), ...)`. -/
def service_request (env : Nat → AttemptOutcome) : Except String (Nat × String) :=
  tenacityRetry service_request_attempt env 3 0

/-- What one iteration of the websocket message loop does with an inbound
`audio` event (`app/main.py`, `websocket_endpoint`): either the loop goes
round again (`continueLoop`, with the events sent this iteration), or an
exception escaped the `while` loop into the `finally` teardown
(`exitLoop`, with the events sent and the exception that escaped the
`except Exception` handler, if any). -/
inductive LoopStep
  | continueLoop (events : List OutEvent)
  | exitLoop (events : List OutEvent) (exn : Option String)
deriving DecidableEq, Repr

/-- The endpoint's `except Exception` handler: it calls
`send_error(websocket, session_id, "Connection error")`, but `send_error`
is defined nowhere in the repository, so the handler itself raises
`NameError` — no error event is sent — and control falls into the
`finally` teardown either way. -/
def except_handler_step (session_id : String) : LoopStep :=
  match send_error_call session_id "Connection error" with
  | Except.ok ev => LoopStep.exitLoop [ev] none
  | Except.error e => LoopStep.exitLoop [] (some e)

/-- Dispatch of one inbound audio event by the message loop:
`validate_audio` is called with no surrounding handler, so a raised
`ValueError` escapes the `while` loop into the `except Exception`
handler; a valid payload proceeds to `route_audio_message`, itself an
undefined module name, whose `NameError` lands in the same handler. In
both cases the loop never resumes. -/
def handle_audio_event (session : SessionInfo) (audio : List Char) : LoopStep :=
  match validate_audio audio with
  | Except.ok _ =>
    match resolveGatewayName "route_audio_message" with
    | Except.ok _ => LoopStep.continueLoop []
    | Except.error _ => except_handler_step session.session_id
  | Except.error _ => except_handler_step session.session_id

/-- The methods defined on `class ConnectionManager` in `app/main.py`
(its `__init__` plus the seven `def`s in the class body). -/
def connectionManagerMethods : List String :=
  ["__init__", "connect", "get_effective_voice_id", "validate_subscription",
   "_get_initial_agent_mode", "store_session", "update_session", "get_org_config"]

/-- The statements of the `finally` block of `websocket_endpoint`
(`app/main.py` lines 244-248), in program order. -/
inductive FinallyStep
  | cancelTask (name : String)
  | callManagerMethod (name : String)
  | forcedCallEnd
deriving DecidableEq, Repr

/-- The `finally` block: cancel the two background tasks, call
`manager.disconnect(session_id)`, then run `handle_call_end` with
`forced=True`. -/
def finallyBlock : List FinallyStep :=
  [FinallyStep.cancelTask "heartbeat_task", FinallyStep.cancelTask "monitoring_task",
   FinallyStep.callManagerMethod "disconnect", FinallyStep.forcedCallEnd]

/-- Execution of the `finally` block under Python attribute-lookup
semantics: invoking a method name not defined on `ConnectionManager`
raises `AttributeError`, which aborts the rest of the block; the result
is the list of collaborator calls issued, or the error that escaped. -/
def runFinally (session : SessionInfo) (org_config : OrganizationConfig) (ttsOk : Bool) :
    List FinallyStep → Except String (List ExtCall)
  | [] => Except.ok []
  | step :: rest =>
    match step with
    | FinallyStep.cancelTask _ => runFinally session org_config ttsOk rest
    | FinallyStep.callManagerMethod name =>
      if connectionManagerMethods.contains name then
        runFinally session org_config ttsOk rest
      else
        Except.error ("AttributeError: " ++ name)
    | FinallyStep.forcedCallEnd =>
      let r := handle_call_end session org_config true ttsOk
      (runFinally session org_config ttsOk rest).map (fun calls => r.2.1 ++ calls)

/-- Number of billing record-call requests in a list of collaborator
calls. -/
def countBilling (calls : List ExtCall) : Nat :=
  calls.countP (fun c =>
    match c with
    | ExtCall.billingRecordCall _ _ _ _ => true
    | _ => false)

/-- The `validate_lead_questions` pydantic validator on
`OrganizationConfig` (`app/schemas.py`): when some question is triggered
at the greeting stage, it requires that some question in the whole list —
of any trigger stage — has `order == 1`, raising otherwise; it performs
no other check. -/
def validate_lead_questions (v : List LeadQuestion) : Except String (List LeadQuestion) :=
  if v.any (fun q => decide (q.trigger_condition = ConversationStage.GREETING)) then
    if !(v.any (fun q => decide (q.order = 1))) then
      Except.error "Greeting questions must have order=1"
    else Except.ok v
  else Except.ok v

/-- The configuration-validity rule as the spec words it: if any lead
question is triggered at the greeting stage, then exactly one question
with order 1 exists for that stage. Stated over the question list of a
configuration, to be compared with `validate_lead_questions`. -/
def specGreetingOrderRule (v : List LeadQuestion) : Prop :=
  (∃ q ∈ v, q.trigger_condition = ConversationStage.GREETING) →
    (v.filter (fun q =>
      decide (q.trigger_condition = ConversationStage.GREETING ∧ q.order = 1))).length = 1

instance (v : List LeadQuestion) : Decidable (specGreetingOrderRule v) := by
  unfold specGreetingOrderRule
  infer_instance

/-! ### Concrete fixtures used by witnesses and counterexamples -/

/-- A required middle-stage question with order 1. -/
def qMid1 : LeadQuestion :=
  { question_id := "q1", question_text := "What is your name?",
    required := true, order := 1, trigger_condition := ConversationStage.MIDDLE }

/-- A required greeting-stage question with order 2 (no order-1 question
at the greeting stage). -/
def qGreeting2 : LeadQuestion :=
  { question_id := "g", question_text := "Who is calling?",
    required := true, order := 2, trigger_condition := ConversationStage.GREETING }

/-- A required greeting-stage question with order 1. -/
def qGreeting1 : LeadQuestion :=
  { question_id := "g1", question_text := "Who is calling?",
    required := true, order := 1, trigger_condition := ConversationStage.GREETING }

/-- A hybrid-plan organization with the single required question
`qMid1`. -/
def orgHybrid : OrganizationConfig :=
  { org_id := "org-1", org_name := "Acme", plan_type := PlanType.hybrid,
    voice_id := "v1", lead_questions := [qMid1] }

/-- A mid-call session for `orgHybrid` with `qMid1` still pending and
nothing asked or answered. -/
def sessMid : SessionInfo :=
  { session_id := "s", org_id := "org-1", plan_type := PlanType.hybrid,
    agent_mode := AgentMode.AI, voice_id := "v1", start_time := 0,
    last_interaction_time := 0, conversation_stage := ConversationStage.MIDDLE,
    required_questions_pending := ["q1"] }

/-- A session at end of call: no pending required questions, one captured
lead answer. -/
def sessEnd : SessionInfo :=
  { session_id := "s", org_id := "org-1", plan_type := PlanType.hybrid,
    agent_mode := AgentMode.AI, voice_id := "v1", start_time := 0,
    last_interaction_time := 120, conversation_stage := ConversationStage.CLOSING,
    lead_answers := [("q1", "Alice")], asked_questions := ["q1"],
    required_questions_pending := [], call_duration := 120 }

/-- A session of an `ai_only`-plan organization. -/
def sessAiOnly : SessionInfo :=
  { session_id := "s2", org_id := "org-2", plan_type := PlanType.ai_only,
    agent_mode := AgentMode.AI, voice_id := "v1", start_time := 0,
    last_interaction_time := 0, conversation_stage := ConversationStage.MIDDLE }

/-- The oversize audio payload of the spec scenario: 10,000,001 hex
characters. -/
def bigAudio : List Char := List.replicate 10000001 'a'

/-- A manager state holding the single session `sessMid` under id
`"s"`. -/
def stOne : ManagerState :=
  { active_connections := ["s"], session_info := [("s", sessMid)] }

/-- A patch naming only `call_duration`. -/
def patchDuration : SessionPatch := { call_duration := some 42 }

/-- The empty manager state. -/
def stEmpty : ManagerState := {}

/-! ### Helper lemmas -/

theorem list_all_replicate (n : Nat) (c : Char) (p : Char → Bool) (h : p c = true) :
    (List.replicate n c).all p = true := by
  induction n with
  | zero => rfl
  | succ n ih => simp only [List.replicate_succ, List.all_cons, h, ih, Bool.and_self]

theorem foldlMinByOrder_mem (qs : List LeadQuestion) (q : LeadQuestion) :
    minByOrder q qs ∈ q :: qs := by
  unfold minByOrder
  induction qs generalizing q with
  | nil => simp
  | cons x xs ih =>
    simp only [List.foldl_cons]
    rcases List.mem_cons.mp (ih (if x.order < q.order then x else q)) with h | h
    · rw [h]
      by_cases hx : x.order < q.order
      · simp [hx]
      · simp [hx]
    · exact List.mem_cons_of_mem _ (List.mem_cons_of_mem _ h)

theorem foldlMinByOrder_le (qs : List LeadQuestion) (q : LeadQuestion) :
    ∀ r ∈ q :: qs, (minByOrder q qs).order ≤ r.order := by
  unfold minByOrder
  induction qs generalizing q with
  | nil =>
    intro r hr
    simp only [List.mem_singleton] at hr
    rw [hr]
    simp
  | cons x xs ih =>
    intro r hr
    simp only [List.foldl_cons]
    have hle : (xs.foldl (fun best y => if y.order < best.order then y else best)
        (if x.order < q.order then x else q)).order ≤
        (if x.order < q.order then x else q).order :=
      ih (if x.order < q.order then x else q) _ (List.mem_cons_self _ _)
    have hbq : (if x.order < q.order then x else q).order ≤ q.order := by
      by_cases hx : x.order < q.order
      · simp [hx]; omega
      · simp [hx]
    have hbx : (if x.order < q.order then x else q).order ≤ x.order := by
      by_cases hx : x.order < q.order
      · simp [hx]
      · simp [hx]; omega
    rcases List.mem_cons.mp hr with h | h
    · rw [h]; exact le_trans hle hbq
    · rcases List.mem_cons.mp h with h2 | h2
      · rw [h2]; exact le_trans hle hbx
      · exact ih (if x.order < q.order then x else q) r (List.mem_cons_of_mem _ h2)

theorem mem_keys_dictInsert (d : List (String × String)) (k v x : String) :
    x ∈ (dictInsert d k v).map Prod.fst ↔ x = k ∨ x ∈ d.map Prod.fst := by
  unfold dictInsert
  by_cases hmem : d.any (fun p => p.1 == k)
  · rw [if_pos hmem]
    simp only [List.any_eq_true, beq_iff_eq] at hmem
    obtain ⟨p0, hp0, hp0k⟩ := hmem
    constructor
    · intro hx
      simp only [List.mem_map] at hx
      obtain ⟨p, ⟨p1, hp1, hp1p⟩, hpx⟩ := hx
      by_cases hk : p1.1 == k
      · left
        rw [← hpx, ← hp1p, if_pos hk]
      · right
        exact List.mem_map.mpr ⟨p1, hp1, by rw [← hpx, ← hp1p, if_neg hk]⟩
    · intro hx
      rcases hx with hx | hx
      · exact List.mem_map.mpr ⟨(k, v),
          List.mem_map.mpr ⟨p0, hp0, by rw [if_pos (beq_iff_eq.mpr hp0k)]⟩, hx.symm⟩
      · simp only [List.mem_map] at hx
        obtain ⟨p, hp, hpx⟩ := hx
        by_cases hk : p.1 == k
        · exact List.mem_map.mpr ⟨(k, v),
            List.mem_map.mpr ⟨p, hp, by rw [if_pos hk]⟩, by
              rw [← hpx]; exact (beq_iff_eq.mp hk).symm⟩
        · exact List.mem_map.mpr ⟨p, List.mem_map.mpr ⟨p, hp, by rw [if_neg hk]⟩, hpx⟩
  · rw [if_neg hmem]
    simp only [List.map_append, List.mem_append, List.map_cons, List.map_nil,
      List.mem_singleton]
    tauto

theorem lookupSession_cons (e : String × SessionInfo) (tl : List (String × SessionInfo))
    (sid : String) :
    lookupSession (e :: tl) sid = if e.1 == sid then some e.2 else lookupSession tl sid := by
  by_cases he : e.1 == sid
  · simp [lookupSession, List.find?_cons, he]
  · simp only [Bool.not_eq_true] at he
    simp [lookupSession, List.find?_cons, he]

theorem setSession_cons (e : String × SessionInfo) (tl : List (String × SessionInfo))
    (sid : String) (s : SessionInfo) :
    setSession (e :: tl) sid s = (if e.1 == sid then (sid, s) else e) :: setSession tl sid s :=
  rfl

theorem lookupSession_setSession_self (m : List (String × SessionInfo)) (sid : String)
    (s2 : SessionInfo) (h : (lookupSession m sid).isSome) :
    lookupSession (setSession m sid s2) sid = some s2 := by
  induction m with
  | nil => simp [lookupSession] at h
  | cons e tl ih =>
    rw [setSession_cons]
    by_cases he : e.1 == sid
    · rw [if_pos he, lookupSession_cons]
      simp
    · rw [if_neg he, lookupSession_cons, if_neg he]
      rw [lookupSession_cons, if_neg he] at h
      exact ih h

theorem lookupSession_setSession_other (m : List (String × SessionInfo)) (sid sid2 : String)
    (s2 : SessionInfo) (h : sid2 ≠ sid) :
    lookupSession (setSession m sid s2) sid2 = lookupSession m sid2 := by
  induction m with
  | nil => rfl
  | cons e tl ih =>
    rw [setSession_cons, lookupSession_cons, lookupSession_cons]
    by_cases he : e.1 == sid
    · have hne : (sid == sid2) = false := by
        rw [beq_eq_false_iff_ne]
        exact fun hc => h hc.symm
      have hne2 : (e.1 == sid2) = false := by
        rw [beq_iff_eq.mp he]
        exact hne
      rw [if_pos he]
      simp only [hne, hne2, Bool.false_eq_true, if_false]
      exact ih
    · rw [if_neg he]
      by_cases he3 : e.1 == sid2
      · rw [if_pos he3, if_pos he3]
      · rw [if_neg he3, if_neg he3]
        exact ih

/-! ### Claim theorems -/

/-- C2: the conversation-stage function tests `duration > ceiling * 0.8`
before `duration > ceiling`, so every duration strictly above the ceiling
(601s on a 600s ceiling, 1801s on the 1800s human-only ceiling) yields
`CLOSING`, and the `ENDED` branch is unreachable for every plan and
duration — contradicting the claimed `d > ceiling ⇒ ENDED` threshold. -/
theorem C2_ended_branch_unreachable :
    detect_conversation_stage PlanType.hybrid 601 = ConversationStage.CLOSING ∧
    detect_conversation_stage PlanType.human_only 1801 = ConversationStage.CLOSING ∧
    ∀ (p : PlanType) (d : ℚ), detect_conversation_stage p d ≠ ConversationStage.ENDED := by
  refine ⟨?_, ?_, ?_⟩
  · simp only [detect_conversation_stage,
      show (if PlanType.hybrid = PlanType.human_only then (1800 : ℚ) else 600) = 600 from rfl]
    norm_num
  · simp only [detect_conversation_stage,
      show (if PlanType.human_only = PlanType.human_only then (1800 : ℚ) else 600) = 1800
        from rfl]
    norm_num
  · intro p d
    simp only [detect_conversation_stage]
    split_ifs <;> simp_all <;> linarith

/-- C4: the attempt body of `service_request` converts every exception
into a normal `(503, Service unavailable)` return, so the tenacity retry
wrapper never sees a failure: the result is always that of the first
attempt alone. A transport failure on attempt 0 followed by an attempt
that would succeed still returns 503, contradicting the claimed retry
behaviour; a well-formed non-2xx response is returned as-is (that part
holds). -/
theorem C4_no_retry_on_transport_failure :
    service_request (fun i => if i = 0 then AttemptOutcome.exn "connection reset"
      else AttemptOutcome.response 200 "ok") = Except.ok (503, "Service unavailable") ∧
    (∀ env : Nat → AttemptOutcome, service_request env = service_request_attempt (env 0)) ∧
    service_request (fun _ => AttemptOutcome.response 500 "bad request") =
      Except.ok (500, "bad request") := by
  refine ⟨rfl, ?_, rfl⟩
  intro env
  cases h : env 0 with
  | response s b => simp [service_request, tenacityRetry, service_request_attempt, h]
  | exn m => simp [service_request, tenacityRetry, service_request_attempt, h]

theorem handle_audio_event_of_error (s : SessionInfo) (audio : List Char) (e : String)
    (h : validate_audio audio = Except.error e) :
    handle_audio_event s audio = LoopStep.exitLoop [] (some "NameError: send_error") := by
  unfold handle_audio_event
  rw [h]
  rfl

theorem validate_audio_bigAudio : validate_audio bigAudio = Except.error "Audio too large" := by
  have hne : bigAudio.isEmpty = false := by
    rw [bigAudio, show (10000001 : Nat) = 10000000 + 1 from rfl, List.replicate_succ]
    rfl
  have hall : bigAudio.all isHexChar = true := list_all_replicate _ _ _ (by decide)
  have hlen : bigAudio.length = 10000001 := List.length_replicate _ _
  unfold validate_audio
  simp only [hne, hall, hlen]
  norm_num

/-- C5 counterexample: an audio event whose payload is 10,000,001 hex
characters is rejected by `validate_audio` (size error), but the raised
error escapes the message loop — the loop step exits rather than
continuing, and the handler's own `send_error` call raises `NameError`,
so no error event is sent either. The session does not remain open,
contradicting the claim. -/
theorem C5_oversize_audio_closes_session :
    validate_audio bigAudio = Except.error "Audio too large" ∧
    handle_audio_event sessMid bigAudio =
      LoopStep.exitLoop [] (some "NameError: send_error") ∧
    ¬ ∃ evs, handle_audio_event sessMid bigAudio = LoopStep.continueLoop evs := by
  refine ⟨validate_audio_bigAudio, ?_, ?_⟩
  · exact handle_audio_event_of_error sessMid bigAudio _ validate_audio_bigAudio
  · rintro ⟨evs, hr⟩
    rw [handle_audio_event_of_error sessMid bigAudio _ validate_audio_bigAudio] at hr
    cases hr

/-- C5 amended: an inbound audio event whose payload fails validation
(malformed or oversize) is rejected, but the raised validation error
escapes the message loop into the generic exception handler, whose own
call to the undefined `send_error` raises `NameError`: no error event is
sent, the loop exits into teardown, and the session does not stay
open. -/
theorem C5_invalid_audio_exits_loop (s : SessionInfo) (audio : List Char) (e : String)
    (h : validate_audio audio = Except.error e) :
    handle_audio_event s audio = LoopStep.exitLoop [] (some "NameError: send_error") :=
  handle_audio_event_of_error s audio e h

/-- C5 amended, witnessed on the concrete malformed payload `"z"`. -/
theorem C5_invalid_audio_exits_loop_witness :
    handle_audio_event sessMid ['z'] =
      LoopStep.exitLoop [] (some "NameError: send_error") :=
  C5_invalid_audio_exits_loop sessMid ['z'] "Invalid audio format" (by rfl)

/-- C7: for a session on an `ai_only` plan, a transfer request changes no
session state (the mode stays AI) and makes no collaborator call, but the
claimed rejection event is never yielded: the branch's only statement
calls `send_error`, which is defined nowhere in the repository
(`send_error` is absent from the module's functions), so `NameError`
escapes to the caller with no event emitted. -/
theorem C7_ai_only_transfer_rejection_lost :
    gatewayModuleFunctions.contains "send_error" = false ∧
    handle_transfer_request sessAiOnly TransferReason.USER_REQUEST ⟨200, some "agent-9"⟩ =
      { session := sessAiOnly, calls := [], events := [],
        exn := some "NameError: send_error" } :=
  ⟨rfl, rfl⟩

/-- C8 counterexample: a configuration with a greeting-stage question of
order 2 and a middle-stage question of order 1 has no order-1 question at
the greeting stage, so the claim requires rejection — but
`validate_lead_questions` accepts it (it only checks that some question
of any stage has order 1). -/
theorem C8_greeting_order_counterexample :
    validate_lead_questions [qGreeting2, qMid1] = Except.ok [qGreeting2, qMid1] ∧
    ¬ specGreetingOrderRule [qGreeting2, qMid1] := by
  exact ⟨rfl, by decide⟩

/-- C8 amended: the validator accepts a question list iff the presence of
any greeting-stage question implies that some question in the whole list
— of any trigger stage, not necessarily unique — has order 1; lists with
no greeting-stage question are always accepted. -/
theorem C8_greeting_order_amended (v : List LeadQuestion) :
    validate_lead_questions v = Except.ok v ↔
      ((∃ q ∈ v, q.trigger_condition = ConversationStage.GREETING) →
        ∃ q ∈ v, q.order = 1) := by
  unfold validate_lead_questions
  by_cases h1 : v.any (fun q => decide (q.trigger_condition = ConversationStage.GREETING))
  · rw [if_pos h1]
    simp only [List.any_eq_true, decide_eq_true_iff] at h1
    by_cases h2 : v.any (fun q => decide (q.order = 1))
    · simp only [h2, Bool.not_true, Bool.false_eq_true, if_false]
      simp only [List.any_eq_true, decide_eq_true_iff] at h2
      simp [h2]
    · have h2f : (v.any fun q => decide (q.order = 1)) = false := by
        simpa using h2
      simp only [h2f, Bool.not_false, if_true]
      simp only [List.any_eq_true, decide_eq_true_iff] at h2
      constructor
      · intro hc
        cases hc
      · intro hc
        exact absurd (hc h1) h2
  · rw [if_neg h1]
    simp only [List.any_eq_true, decide_eq_true_iff] at h1
    simp [h1]

/-- C8 amended, witnessed: a single greeting question of order 1 is
accepted. -/
theorem C8_greeting_order_amended_witness :
    validate_lead_questions [qGreeting1] = Except.ok [qGreeting1] :=
  (C8_greeting_order_amended [qGreeting1]).mpr (by decide)

/-- C1: `disconnect` is not among the methods defined on
`ConnectionManager`, so the `finally` block of the session handler raises
`AttributeError` before reaching the forced `handle_call_end` — the
finalize pipeline never runs at teardown; and `handle_call_end` itself
never consults the session map, so invoking it twice for the same
session (explicit end_call, then teardown) emits the billing record-call
twice. Both halves contradict the claim. -/
theorem C1_teardown_finalize_never_runs :
    connectionManagerMethods.contains "disconnect" = false ∧
    runFinally sessEnd orgHybrid true finallyBlock =
      Except.error "AttributeError: disconnect" ∧
    countBilling ((handle_call_end sessEnd orgHybrid false true).2.1 ++
      (handle_call_end sessEnd orgHybrid true true).2.1) = 2 :=
  ⟨rfl, rfl, rfl⟩

/-- C3 counterexample: starting from a fresh session (nothing asked,
nothing answered), capturing the answer to `q1` records the id in both
`asked_questions` and `lead_answers`, so a question id can appear in
both of \x7basked, answered\x7d — contradicting the claimed mutual
exclusion. -/
theorem C3_capture_puts_id_in_both :
    "q1" ∈ (capture_lead_answer sessMid qMid1 "Alice").1.asked_questions ∧
    dictLookup (capture_lead_answer sessMid qMid1 "Alice").1.lead_answers "q1" =
      some "Alice" ∧
    sessMid.asked_questions = [] := by
  refine ⟨?_, rfl, rfl⟩
  simp [capture_lead_answer, sessMid, qMid1]

/-- C3 amended: every answered id is also recorded in `asked_questions`
(capturing appends the id to asked as well as answered); an id leaves
`required_questions_pending` exactly when it is the one being answered;
`asked_questions` is append-only; and both mutating operations (asking,
capturing) preserve all of this. -/
theorem C3_lead_tracking_amended (s : SessionInfo) (q : LeadQuestion) (a : String)
    (ttsOk : Bool)
    (hinv : ∀ qid, qid ∈ s.lead_answers.map Prod.fst → qid ∈ s.asked_questions) :
    (∀ qid, qid ∈ (capture_lead_answer s q a).1.lead_answers.map Prod.fst →
      qid ∈ (capture_lead_answer s q a).1.asked_questions) ∧
    (∀ qid, qid ∈ (capture_lead_answer s q a).1.required_questions_pending ↔
      (qid ∈ s.required_questions_pending ∧ qid ≠ q.question_id)) ∧
    (capture_lead_answer s q a).1.asked_questions =
      s.asked_questions ++ [q.question_id] ∧
    (ask_lead_question s q ttsOk).1.lead_answers = s.lead_answers ∧
    (ask_lead_question s q ttsOk).1.required_questions_pending =
      s.required_questions_pending ∧
    (∃ suffix, (ask_lead_question s q ttsOk).1.asked_questions =
      s.asked_questions ++ suffix) := by
  refine ⟨?_, ?_, rfl, ?_, ?_, ?_⟩
  · intro qid hq
    simp only [capture_lead_answer] at hq ⊢
    rcases (mem_keys_dictInsert s.lead_answers q.question_id a qid).mp hq with h | h
    · subst h
      exact List.mem_append_right _ (List.mem_singleton_self _)
    · exact List.mem_append_left _ (hinv qid h)
  · intro qid
    simp only [capture_lead_answer]
    simp [List.mem_filter, bne_iff_ne]
  · cases ttsOk <;> rfl
  · cases ttsOk <;> rfl
  · cases ttsOk with
    | false => exact ⟨[], (List.append_nil _).symm⟩
    | true => exact ⟨[q.question_id], rfl⟩

/-- C3 amended, witnessed on a fresh session: capturing appends the
answered id to asked. -/
theorem C3_lead_tracking_amended_witness :
    (capture_lead_answer sessMid qMid1 "Alice").1.asked_questions =
      sessMid.asked_questions ++ [qMid1.question_id] :=
  (C3_lead_tracking_amended sessMid qMid1 "Alice" true (by simp [sessMid])).2.2.1

/-- C6: lead-question selection is deterministic and matches the claimed
rule: the eligible list is exactly the stage-matching not-yet-asked
questions, the required-pending list is exactly the eligible required
questions still pending, and the chosen question is a lowest-order
member of the required-pending list when it is nonempty, else a
lowest-order eligible question, else none. -/
theorem C6_lead_question_selection (s : SessionInfo) (org : OrganizationConfig) :
    (∀ q : LeadQuestion, q ∈ stage_questions s org ↔
      (q ∈ org.lead_questions ∧ q.trigger_condition = s.conversation_stage ∧
        q.question_id ∉ s.asked_questions)) ∧
    (∀ q : LeadQuestion, q ∈ required_pending s org ↔
      (q ∈ stage_questions s org ∧ q.required = true ∧
        q.question_id ∈ s.required_questions_pending)) ∧
    (required_pending s org ≠ [] →
      ∃ q, get_next_lead_question s org = some q ∧ q ∈ required_pending s org ∧
        ∀ r ∈ required_pending s org, q.order ≤ r.order) ∧
    (required_pending s org = [] → stage_questions s org ≠ [] →
      ∃ q, get_next_lead_question s org = some q ∧ q ∈ stage_questions s org ∧
        ∀ r ∈ stage_questions s org, q.order ≤ r.order) ∧
    (stage_questions s org = [] → get_next_lead_question s org = none) := by
  refine ⟨?_, ?_, ?_, ?_, ?_⟩
  · intro q
    simp [stage_questions, List.mem_filter, and_assoc]
  · intro q
    simp [required_pending, List.mem_filter, Bool.and_eq_true, and_assoc]
  · intro h
    cases hrp : required_pending s org with
    | nil => exact absurd hrp h
    | cons q qs =>
      refine ⟨minByOrder q qs, ?_, ?_, ?_⟩
      · unfold get_next_lead_question
        rw [hrp]
      · exact foldlMinByOrder_mem qs q
      · exact foldlMinByOrder_le qs q
  · intro h1 h2
    cases hsq : stage_questions s org with
    | nil => exact absurd hsq h2
    | cons q qs =>
      refine ⟨minByOrder q qs, ?_, ?_, ?_⟩
      · unfold get_next_lead_question
        rw [h1, hsq]
      · exact foldlMinByOrder_mem qs q
      · exact foldlMinByOrder_le qs q
  · intro h
    have h2 : required_pending s org = [] := by
      unfold required_pending
      rw [h]
      rfl
    unfold get_next_lead_question
    rw [h2, h]

/-- C6 witnessed: on a session with `q1` pending at the middle stage, the
selector returns a lowest-order required-pending question. -/
theorem C6_lead_question_selection_witness :
    ∃ q, get_next_lead_question sessMid orgHybrid = some q ∧
      q ∈ required_pending sessMid orgHybrid ∧
      ∀ r ∈ required_pending sessMid orgHybrid, q.order ≤ r.order :=
  (C6_lead_question_selection sessMid orgHybrid).2.2.1 (by decide)

/-- C9: `update_session` on a present session id sets exactly the fields
named in the patch (each unnamed field keeps its value, including the
immutable identity fields), leaves every other session untouched, and
persists exactly one full snapshot; on an absent session id it is a
silent no-op with no store write. -/
theorem C9_update_session_frame (st : ManagerState) (sid : String) (p : SessionPatch) :
    (∀ s : SessionInfo, lookupSession st.session_info sid = some s →
      (update_session st sid p).1.active_connections = st.active_connections ∧
      lookupSession (update_session st sid p).1.session_info sid = some (applyPatch s p) ∧
      (∀ sid2, sid2 ≠ sid →
        lookupSession (update_session st sid p).1.session_info sid2 =
          lookupSession st.session_info sid2) ∧
      (update_session st sid p).2 = [(sid, applyPatch s p)]) ∧
    (lookupSession st.session_info sid = none → update_session st sid p = (st, [])) ∧
    (∀ s : SessionInfo,
      (applyPatch s p).session_id = s.session_id ∧
      (applyPatch s p).org_id = s.org_id ∧
      (applyPatch s p).plan_type = s.plan_type ∧
      (applyPatch s p).voice_id = s.voice_id ∧
      (applyPatch s p).start_time = s.start_time ∧
      (p.last_interaction_time = none →
        (applyPatch s p).last_interaction_time = s.last_interaction_time) ∧
      (∀ v, p.last_interaction_time = some v → (applyPatch s p).last_interaction_time = v) ∧
      (p.call_duration = none → (applyPatch s p).call_duration = s.call_duration) ∧
      (∀ v, p.call_duration = some v → (applyPatch s p).call_duration = v) ∧
      (p.conversation_stage = none →
        (applyPatch s p).conversation_stage = s.conversation_stage) ∧
      (∀ v, p.conversation_stage = some v → (applyPatch s p).conversation_stage = v) ∧
      (p.agent_mode = none → (applyPatch s p).agent_mode = s.agent_mode) ∧
      (∀ v, p.agent_mode = some v → (applyPatch s p).agent_mode = v) ∧
      (p.transfer_reason = none → (applyPatch s p).transfer_reason = s.transfer_reason) ∧
      (∀ v, p.transfer_reason = some v → (applyPatch s p).transfer_reason = v) ∧
      (p.human_agent_id = none → (applyPatch s p).human_agent_id = s.human_agent_id) ∧
      (∀ v, p.human_agent_id = some v → (applyPatch s p).human_agent_id = v) ∧
      (p.lead_answers = none → (applyPatch s p).lead_answers = s.lead_answers) ∧
      (∀ v, p.lead_answers = some v → (applyPatch s p).lead_answers = v) ∧
      (p.asked_questions = none → (applyPatch s p).asked_questions = s.asked_questions) ∧
      (∀ v, p.asked_questions = some v → (applyPatch s p).asked_questions = v) ∧
      (p.required_questions_pending = none →
        (applyPatch s p).required_questions_pending = s.required_questions_pending) ∧
      (∀ v, p.required_questions_pending = some v →
        (applyPatch s p).required_questions_pending = v)) := by
  refine ⟨?_, ?_, ?_⟩
  · intro s hs
    refine ⟨?_, ?_, ?_, ?_⟩
    · simp only [update_session, hs]
    · simp only [update_session, hs]
      exact lookupSession_setSession_self _ _ _ (by rw [hs]; rfl)
    · intro sid2 h2
      simp only [update_session, hs]
      exact lookupSession_setSession_other _ _ _ _ h2
    · simp only [update_session, hs]
  · intro h
    simp only [update_session, h]
  · intro s
    refine ⟨rfl, rfl, rfl, rfl, rfl, ?_, ?_, ?_, ?_, ?_, ?_, ?_, ?_, ?_, ?_, ?_, ?_, ?_,
      ?_, ?_, ?_, ?_, ?_⟩ <;>
      first
        | (intro h; simp [applyPatch, h])
        | (intro v h; simp [applyPatch, h])

/-- C9 witnessed: patching `call_duration` on a present session updates
its snapshot; updating an absent id changes nothing and writes
nothing. -/
theorem C9_update_session_frame_witness :
    lookupSession (update_session stOne "s" patchDuration).1.session_info "s" =
      some (applyPatch sessMid patchDuration) ∧
    update_session stEmpty "s" patchDuration = (stEmpty, []) :=
  ⟨((C9_update_session_frame stOne "s" patchDuration).1 sessMid (by rfl)).2.1,
   (C9_update_session_frame stEmpty "s" patchDuration).2.1 rfl⟩

/-- C10: on every rejected admission (organization lookup failed or
subscription inactive), `connect` has already accepted the websocket and
registered the connection — the action trace is accept, register, close,
in that order — it returns `false`, the registered connection stays in
`active_connections`, and `session_info` is unchanged, so the connection
map holds an entry with no session state. -/
theorem C10_rejected_admission_keeps_connection (st : ManagerState) (sid org_id : String)
    (orgLookup : Option OrganizationConfig) (subActive : Bool) (probe : VoiceProbe)
    (now : ℚ) (h : orgLookup = none ∨ subActive = false) :
    (connect st sid org_id orgLookup subActive probe now).1 = false ∧
    (connect st sid org_id orgLookup subActive probe now).2.1.active_connections =
      st.active_connections ++ [sid] ∧
    (connect st sid org_id orgLookup subActive probe now).2.1.session_info =
      st.session_info ∧
    ∃ code reason, (connect st sid org_id orgLookup subActive probe now).2.2 =
      [ConnAction.acceptWs, ConnAction.registerConnection sid,
       ConnAction.closeWs code reason] := by
  rcases h with h | h
  · subst h
    exact ⟨rfl, rfl, rfl, 4004, "Organization not found", rfl⟩
  · cases orgLookup with
    | none => exact ⟨rfl, rfl, rfl, 4004, "Organization not found", rfl⟩
    | some cfg =>
      subst h
      exact ⟨rfl, rfl, rfl, 4003, "Subscription inactive", rfl⟩

/-- C10 witnessed on an unknown organization: the connection is accepted,
registered and left registered while the admission is rejected with
close code 4004 and no session state. -/
theorem C10_rejected_admission_keeps_connection_witness :
    (connect stEmpty "s9" "org-x" none true ⟨200, VoiceStatus.READY⟩ 0).1 = false ∧
    (connect stEmpty "s9" "org-x" none true ⟨200, VoiceStatus.READY⟩ 0).2.1.active_connections =
      stEmpty.active_connections ++ ["s9"] ∧
    (connect stEmpty "s9" "org-x" none true ⟨200, VoiceStatus.READY⟩ 0).2.1.session_info =
      stEmpty.session_info ∧
    ∃ code reason, (connect stEmpty "s9" "org-x" none true ⟨200, VoiceStatus.READY⟩ 0).2.2 =
      [ConnAction.acceptWs, ConnAction.registerConnection "s9",
       ConnAction.closeWs code reason] :=
  C10_rejected_admission_keeps_connection stEmpty "s9" "org-x" none true
    ⟨200, VoiceStatus.READY⟩ 0 (Or.inl rfl)

end CallCenter
